import Mathlib

/-!
Verification model of the gview repository (naojsoft/gview).

The model is a shallow embedding of the command interpreter in
`src/gview/GView.py` (class `GView`, method `exec_cmd`) and of the ZVIEW
compatibility layer in `src/gview/ZView.py` (class `ZView`): the buffer
registry, the viewer registry, the `cmd_*` handlers, the object finding
pipeline `find_objects` and the report builder `make_report`.

Python exceptions are modelled by the type `PyExc`; a raising computation
returns `Except (St × PyExc) St`, carrying the state at the moment of the
raise, because instance state in Python survives an exception.  External
collaborators (the `float` and `int` builtins, `AstroImage.load_file`,
`os.chdir`, the shell runner, the iqcalc and wcs library functions, the
ginga display widget) are oracles collected in environment records; the
display widget operations are modelled as total state updates on a viewer
record, following the collaborator contracts of the specification.
Python dictionaries (`Bunch`) are association lists with first-match
lookup and in-place update.
-/

namespace Gview

/-- Python exception values, tagged with the class that matters to the
`except` clauses appearing in the source. -/
inductive PyExc where
  | indexError (m : String)
  | attributeError (m : String)
  | valueError (m : String)
  | nameError (m : String)
  | typeError (m : String)
  | keyError (m : String)
  | ioError (m : String)
  | other (m : String)
  deriving DecidableEq, Repr

/-- The text of an exception, `str(e)` in the source. -/
def PyExc.msg : PyExc → String
  | .indexError m => m
  | .attributeError m => m
  | .valueError m => m
  | .nameError m => m
  | .typeError m => m
  | .keyError m => m
  | .ioError m => m
  | .other m => m

/-- Lookup in a Python dict modelled as an association list (first match). -/
def dictGet {κ α : Type} [DecidableEq κ] : List (κ × α) → κ → Option α
  | [], _ => none
  | (k', v) :: t, k => if k' = k then some v else dictGet t k

/-- `d[k] = v` on a Python dict: replace the binding in place when the key
is present, append a new binding otherwise. -/
def dictSet {κ α : Type} [DecidableEq κ] : List (κ × α) → κ → α → List (κ × α)
  | [], k, v => [(k, v)]
  | (k', v') :: t, k, v => if k' = k then (k, v) :: t else (k', v') :: dictSet t k v

/-- `del d[k]` on a Python dict: drop the (first) binding for the key. -/
def dictDel {κ α : Type} [DecidableEq κ] : List (κ × α) → κ → List (κ × α)
  | [], _ => []
  | (k', v') :: t, k => if k' = k then t else (k', v') :: dictDel t k

/-- Number of bindings an association list holds for a key; a well formed
dict holds at most one. -/
def countKey {κ α : Type} [DecidableEq κ] : List (κ × α) → κ → Nat
  | [], _ => 0
  | (k', _) :: t, k => (if k' = k then 1 else 0) + countKey t k

theorem dictGet_dictSet_self {κ α : Type} [DecidableEq κ]
    (d : List (κ × α)) (k : κ) (v : α) : dictGet (dictSet d k v) k = some v := by
  induction d with
  | nil => simp [dictGet, dictSet]
  | cons h t ih =>
    obtain ⟨k', v'⟩ := h
    by_cases hk : k' = k <;> simp [dictGet, dictSet, hk, ih]

theorem dictGet_dictSet_ne {κ α : Type} [DecidableEq κ]
    (d : List (κ × α)) (k m : κ) (v : α) (hne : m ≠ k) :
    dictGet (dictSet d k v) m = dictGet d m := by
  induction d with
  | nil => simp [dictGet, dictSet, Ne.symm hne]
  | cons h t ih =>
    obtain ⟨k', v'⟩ := h
    by_cases hk : k' = k
    · subst hk
      simp [dictGet, dictSet, Ne.symm hne]
    · by_cases hm : k' = m
      · subst hm
        simp [dictGet, dictSet, hk]
      · simp [dictGet, dictSet, hk, hm, ih]

theorem countKey_dictSet_of_one {κ α : Type} [DecidableEq κ]
    (d : List (κ × α)) (k : κ) (v : α) (hc : countKey d k = 1) :
    countKey (dictSet d k v) k = 1 := by
  induction d with
  | nil => simp [countKey, dictSet]
  | cons h t ih =>
    obtain ⟨k', v'⟩ := h
    by_cases hk : k' = k
    · subst hk
      simp only [countKey, if_pos rfl] at hc ⊢
      simp only [dictSet, if_pos rfl, countKey, if_pos rfl]
      omega
    · simp only [countKey, if_neg hk, Nat.zero_add] at hc
      simp [dictSet, countKey, hk, ih hc]

theorem dictGet_eq_none_of_countKey_zero {κ α : Type} [DecidableEq κ]
    (d : List (κ × α)) (k : κ) (hc : countKey d k = 0) : dictGet d k = none := by
  induction d with
  | nil => simp [dictGet]
  | cons h t ih =>
    obtain ⟨k', v'⟩ := h
    by_cases hk : k' = k
    · simp [countKey, hk] at hc
    · simp only [countKey, if_neg hk, Nat.zero_add] at hc
      simp [dictGet, hk, ih hc]

theorem dictGet_dictDel_of_one {κ α : Type} [DecidableEq κ]
    (d : List (κ × α)) (k : κ) (hc : countKey d k = 1) :
    dictGet (dictDel d k) k = none := by
  induction d with
  | nil => simp [dictGet, dictDel]
  | cons h t ih =>
    obtain ⟨k', v'⟩ := h
    by_cases hk : k' = k
    · rw [hk] at hc ⊢
      simp only [countKey, if_pos rfl, eq_self_iff_true, if_true] at hc
      have ht : countKey t k = 0 := by omega
      simp [dictDel, dictGet_eq_none_of_countKey_zero t k ht]
    · simp only [countKey, if_neg hk, Nat.zero_add] at hc
      simp [dictDel, dictGet, hk, ih hc]

/-- The data an `AstroImage.load_file` call produces: FITS header and the
pixel array dimensions (pixel contents are irrelevant to the claims). -/
structure ImageData where
  header : List (String × String)
  width : Nat
  height : Nat
  deriving DecidableEq, Repr

/-- A buffer slot: an `AstroImage` object.  A freshly constructed image has
no loaded data and no source path. -/
structure Image where
  data : Option ImageData := none
  path : Option String := none
  deriving DecidableEq, Repr

/-- A viewer window (`FitsViewer` plus its ginga `CanvasView` widget),
reduced to the display state the command layer manipulates. -/
structure Viewer where
  name : String
  width : Int := 900
  height : Int := 1000
  image : Option Image := none
  cmap : String := "gray"
  inverted : Bool := false
  cuts : Option (ℚ × ℚ) := none
  dist : String := "linear"
  destroyed : Bool := false
  deriving DecidableEq, Repr

/-- Combined state of the `GView` and `ZView` instances.  Viewer objects
live in a heap keyed by allocation number so that the current viewer
pointer `_view` (field `view`) can alias a registry entry, and can keep
pointing at an object after its registry entry is deleted.  `hist` is the
output text area, most recent line first. -/
structure St where
  hist : List String := []
  buffers : List (String × Image) := []
  viewers : List (String × Nat) := []
  vheap : List (Nat × Viewer) := []
  view : Option Nat := none
  nextId : Nat := 0
  cwd : String := "/"
  deriving DecidableEq, Repr

/-- `GView.log(text)` without a time prefix. -/
def log (st : St) (m : String) : St := { st with hist := m :: st.hist }

/-- Result of a handler: the new state, or the state at the raise paired
with the exception (instance state survives a Python exception). -/
abbrev PyRes := Except (St × PyExc) St

/-- External collaborators of the command layer. -/
structure Env where
  /-- the Python `float` builtin: `none` models a `ValueError`. -/
  pfloat : String → Option ℚ
  /-- the Python `int` builtin: `none` models a `ValueError`. -/
  pint : String → Option Int
  /-- `AstroImage.load_file`: I/O and format failures raise. -/
  loadFile : String → Except PyExc ImageData
  /-- `os.chdir` followed by `os.getcwd`: yields the new directory. -/
  chdir : String → Except PyExc String
  /-- `os.environ` entry `HOME`. -/
  home : String
  /-- the process execution collaborator
  `get_exitcode_stdout_stderr`: exit code, stdout, stderr. -/
  shellRun : String → Int × String × String
  /-- `ginga.cmap.get_names()`. -/
  cmapNames : List String
  /-- docstring metadata of the `cmd_*` methods (`method.__doc__`). -/
  docOf : String → Option String
  /-- `time.strftime` result used by the log time prefix. -/
  now : String

/-- `GView.log(text, w_time=True)`. -/
def logT (env : Env) (st : St) (m : String) : St := log st (env.now ++ ": " ++ m)

/-- The whitespace class of the Python `str` methods. -/
def pyIsSpace (c : Char) : Bool :=
  c == ' ' || c == '\t' || c == '\n' || c == '\r' || c == '\x0b' || c == '\x0c'

/-- Python `str.strip()` (strings are handled through their character
lists so that concrete runs reduce). -/
def pyStrip (s : String) : String :=
  String.mk (((s.data.dropWhile pyIsSpace).reverse.dropWhile pyIsSpace).reverse)

/-- Accumulator loop of `pySplit`. -/
def splitWSAux : List Char → List Char → List String
  | [], acc => if acc.isEmpty then [] else [String.mk acc.reverse]
  | c :: cs, acc =>
    if pyIsSpace c then
      if acc.isEmpty then splitWSAux cs []
      else String.mk acc.reverse :: splitWSAux cs []
    else splitWSAux cs (c :: acc)

/-- Python `str.split()` with no separator: split on whitespace runs,
dropping empty pieces. -/
def pySplit (s : String) : List String := splitWSAux s.data []

/-- Python `str.startswith("/")`. -/
def pyStartsWithSlash (s : String) : Bool :=
  match s.data with
  | [] => false
  | c :: _ => c == '/'

/-- Python `str.endswith("/")`. -/
def pyEndsWithSlash (s : String) : Bool :=
  match s.data.getLast? with
  | none => false
  | some c => c == '/'

/-- Python `text[1:]`. -/
def pyDropHead (s : String) : String := String.mk (s.data.drop 1)

/-- Python `str.lower()`. -/
def pyLower (s : String) : String := String.mk (s.data.map Char.toLower)

/-- `os.path.join(cwd, path)` for a relative `path`. -/
def pathJoin (cwd p : String) : String :=
  if pyEndsWithSlash cwd then cwd ++ p else cwd ++ "/" ++ p

/-- Path resolution of `cmd_rd`: absolute paths pass through, relative
paths are joined to the current working directory. -/
def resolvePath (cwd p : String) : String :=
  if pyStartsWithSlash p then p else pathJoin cwd p

def insertSorted (s : String) : List String → List String
  | [] => [s]
  | x :: xs => if s ≤ x then s :: x :: xs else x :: insertSorted s xs

/-- `sorted` on a list of names (Python `list.sort`). -/
def sortStrings (l : List String) : List String := l.foldr insertSorted []

/-- `"\n".join(...)`. -/
def joinNL : List String → String
  | [] => ""
  | [x] => x
  | x :: xs => x ++ "\n" ++ joinNL xs

/-- `" ".join(...)`. -/
def joinSp : List String → String
  | [] => ""
  | [x] => x
  | x :: xs => x ++ " " ++ joinSp xs

/-- Left justified, truncating format such as Python `%-8.8s`. -/
def fmtTrunc (s : String) (n : Nat) : String :=
  String.mk (s.data.take n ++ List.replicate (n - (s.data.take n).length) ' ')

/-- Right justified format such as Python `%13s`. -/
def fmtRight (s : String) (n : Nat) : String :=
  String.mk (List.replicate (n - s.data.length) ' ' ++ s.data)

/-! ### Viewer heap operations -/

/-- Update the viewer object a heap id designates (a ginga widget call on
an aliased viewer object). -/
def updView (st : St) (i : Nat) (f : Viewer → Viewer) : St :=
  match dictGet st.vheap i with
  | none => st
  | some v => { st with vheap := dictSet st.vheap i (f v) }

/-- `ZView.make_viewer`: build a `FitsViewer`, register it under `name`
(silently overwriting any registry entry of the same name), and make it
current when no current viewer exists.  Returns the heap id of the new
viewer object. -/
def make_viewer (st : St) (name : String) (w h : Int) : St × Nat :=
  let i := st.nextId
  let v : Viewer := { name := name, width := w, height := h }
  ({ st with vheap := dictSet st.vheap i v,
             viewers := dictSet st.viewers name i,
             view := if st.view.isNone then some i else st.view,
             nextId := i + 1 }, i)

/-- `ZView.delete_viewer`: look the viewer up (a missing name would raise
`KeyError`), delete its registry entry, and destroy the window.  The
current viewer pointer `_view` is not touched. -/
def delete_viewer (st : St) (name : String) : PyRes :=
  match dictGet st.viewers name with
  | none => .error (st, PyExc.keyError name)
  | some i =>
    let st := { st with viewers := dictDel st.viewers name }
    .ok (updView st i (fun v => { v with destroyed := true }))

/-! ### Command handlers (`ZView.cmd_*`) -/

/-- Body of `cmd_pwd`. -/
def pwdBody (st : St) : St := log st st.cwd

/-- `GView.exec_shell`: run the line through the process collaborator and
log stdout, stderr and a nonzero exit code. -/
def exec_shell (env : Env) (st : St) (cmdStr : String) : St :=
  let (res, out, err) := env.shellRun cmdStr
  let st := if out.length > 0 then log st out else st
  let st := if err.length > 0 then log st err else st
  if res ≠ 0 then log st ("command terminated with error code " ++ toString res) else st

/-- `cmd_cd`: change directory (defaulting to `HOME`), then report the new
working directory. -/
def cmd_cd (env : Env) (args : List String) (st : St) : PyRes :=
  let path := match args with | [] => env.home | p :: _ => p
  match env.chdir path with
  | .error e => .error (st, e)
  | .ok newcwd => .ok (pwdBody { st with cwd := newcwd })

/-- Shared tail of `cmd_rd`: announce the read, load through the image I/O
collaborator, store the result in the buffer slot, and confirm. -/
def rdLoad (env : Env) (bufname path : String) (st : St) : PyRes :=
  let st := log st ("Reading file...(" ++ path ++ ")")
  match env.loadFile path with
  | .error e => .error (st, e)
  | .ok dat =>
    let st := { st with
      buffers := dictSet st.buffers bufname { data := some dat, path := some path } }
    .ok (log st "File read")

/-- `cmd_rd`: read a file into a named buffer.  An existing buffer name is
reused after a logged warning; a new name gets a fresh empty image object
registered before the load is attempted. -/
def cmd_rd (env : Env) (bufname path0 : String) (st : St) : PyRes :=
  let path := resolvePath st.cwd path0
  match dictGet st.buffers bufname with
  | some _ =>
    rdLoad env bufname path
      (log st ("Buffer " ++ bufname ++ " is in use. Will discard the previous data"))
  | none =>
    rdLoad env bufname path
      { st with buffers := dictSet st.buffers bufname { data := none, path := none } }

/-- The `if self._view is None: self.make_viewer("gview_0")` step of
`cmd_v` (defaulted width and height). -/
def ensureViewer (st : St) : St :=
  match st.view with
  | some _ => st
  | none => (make_viewer st "gview_0" 900 1000).1

/-- `gw.set_image(image)` on the current viewer. -/
def setImage (st : St) (img : Image) : St :=
  match st.view with
  | none => st
  | some i => updView st i (fun v => { v with image := some img })

/-- `gw.cut_levels(locut, hicut)` on the current viewer. -/
def setCuts (st : St) (lo hi : ℚ) : St :=
  match st.view with
  | none => st
  | some i => updView st i (fun v => { v with cuts := some (lo, hi) })

/-- The colormap tail of `cmd_v` and of `cmd_cm`: `inv` inverts the
current colormap, any other name is set as the colormap. -/
def applyCm (st : St) (cm : String) : St :=
  match st.view with
  | none => st
  | some i =>
    if cm = "inv" then updView st i (fun v => { v with inverted := !v.inverted })
    else updView st i (fun v => { v with cmap := cm })

/-- Continuation of the `cmd_v` cut level parse once `float(args[1])` is
resolved.  `none` models the `ValueError` being swallowed after `locut`
was already assigned: `cut_levels(locut, hicut)` then references the never
assigned `hicut` and raises. -/
def vParse2 (st : St) (lo : ℚ) (hi' : Option ℚ) (rest2 : List String) : PyRes :=
  match hi' with
  | none =>
    .error (st, PyExc.nameError "local variable \x27hicut\x27 referenced before assignment")
  | some hi =>
    let st := setCuts st lo hi
    match rest2 with
    | [] => .ok st
    | c :: _ => .ok (applyCm st c)

/-- Continuation of the `cmd_v` cut level parse once `float(args[0])` is
resolved.  `none` models the `ValueError` path: no cuts, and the colormap
name is read from the unsliced argument list.  When the first argument
parses, reading `args[1]` from a one element list raises `IndexError`
(not caught by the `except ValueError`). -/
def vParse1 (env : Env) (st : St) (a0 : String) (rest : List String) : Option ℚ → PyRes
  | none => .ok (applyCm st a0)
  | some lo =>
    match rest with
    | [] => .error (st, PyExc.indexError "list index out of range")
    | a1 :: rest2 => vParse2 st lo (env.pfloat a1) rest2

/-- The optional-argument tail of `cmd_v`: cut levels and colormap. -/
def vArgsStep (env : Env) (st : St) : List String → PyRes
  | [] => .ok st
  | a0 :: rest => vParse1 env st a0 rest (env.pfloat a0)

/-- `cmd_v`: display a buffer in the current viewer (creating `gview_0`
when none exists), with optional cut levels and colormap arguments. -/
def cmd_v (env : Env) (bufname : String) (args : List String) (st : St) : PyRes :=
  match dictGet st.buffers bufname with
  | none => .ok (log st ("!! No such buffer: \x27" ++ bufname ++ "\x27"))
  | some image => vArgsStep env (setImage (ensureViewer st) image) args

/-- First-occurrence replacement, Python `args[args.index(a)] = b` guarded
by `a in args`. -/
def replaceFirst : List String → String → String → List String
  | [], _, _ => []
  | x :: t, a, b => if x = a then b :: t else x :: replaceFirst t a b

/-- The argument rewriting of `cmd_tv`: the first `bw` becomes `gray`,
then the first `jt` becomes `rainbow3`. -/
def tvSubstArgs (args : List String) : List String :=
  replaceFirst (replaceFirst args "bw" "gray") "jt" "rainbow3"

/-- `cmd_tv`: ZVIEW compatibility command, delegates to `cmd_v` after the
colormap alias rewriting. -/
def cmd_tv (env : Env) (bufname : String) (args : List String) (st : St) : PyRes :=
  cmd_v env bufname (tvSubstArgs args) st

/-- `cmd_cm`: report or set the colormap of the current viewer. -/
def cmd_cm (args : List String) (st : St) : PyRes :=
  match st.view with
  | none => .ok (log st "No viewers")
  | some i =>
    match args with
    | [] => .ok (log st (((dictGet st.vheap i).map Viewer.cmap).getD ""))
    | cm :: _ =>
      if cm = "inv" then .ok (updView st i (fun v => { v with inverted := !v.inverted }))
      else .ok (updView st i (fun v => { v with cmap := cm }))

/-- `cmd_dist`: report or set the color distribution algorithm of the
current viewer. -/
def cmd_dist (args : List String) (st : St) : PyRes :=
  match st.view with
  | none => .ok (log st "No viewers")
  | some i =>
    match args with
    | [] => .ok (log st (((dictGet st.vheap i).map Viewer.dist).getD ""))
    | d :: _ => .ok (updView st i (fun v => { v with dist := d }))

/-- The command names for which a `cmd_<name>` method exists on `ZView`. -/
def cmdNames : List String :=
  ["cd", "ls", "pwd", "rd", "v", "tv", "cm", "dist", "help", "mkv",
   "lsv", "lscm", "head", "swv", "lsb", "rmb", "rm"]

/-- `cmd_help`: documentation for one command, or the full listing built
from the `cmd_*` methods in `dir(self)` order (alphabetical). -/
def cmd_help (env : Env) (args : List String) (st : St) : PyRes :=
  match args with
  | a :: _ =>
    let cmdname := pyLower a
    if cmdname ∈ cmdNames then
      match env.docOf cmdname with
      | none =>
        .ok (log st ("Sorry, no documentation found for \x27" ++ cmdname ++ "\x27"))
      | some doc => .ok (log st (cmdname ++ ": " ++ doc))
    else
      .ok (log st ("No such command \x27" ++ cmdname ++
        "\x27; type help for general help."))
  | [] =>
    let lines := (sortStrings cmdNames).map
      (fun n => n ++ ": " ++ ((env.docOf n).getD "no documentation"))
    .ok (log st (joinNL lines))

/-- Tail of `cmd_mkv` once width and height are known: the new viewer is
made and unconditionally becomes current, then the call to the nonexistent
`self.cmd_view()` raises `AttributeError`. -/
def mkvGo (name : String) (w h : Int) (st : St) : PyRes :=
  let (st1, i) := make_viewer st name w h
  let st2 := { st1 with view := some i }
  .error (st2, PyExc.attributeError "\x27ZView\x27 object has no attribute \x27cmd_view\x27")

/-- `cmd_mkv`: make a viewer, with optional integer width and height
arguments (`int()` failures raise `ValueError`, a single size argument
raises `IndexError`). -/
def cmd_mkv (env : Env) (name : String) (args : List String) (st : St) : PyRes :=
  match args with
  | [] => mkvGo name 900 1000 st
  | w :: rest =>
    match env.pint w with
    | none => .error (st, PyExc.valueError "invalid literal for int() with base 10")
    | some wi =>
      match rest with
      | [] => .error (st, PyExc.indexError "list index out of range")
      | h :: _ =>
        match env.pint h with
        | none => .error (st, PyExc.valueError "invalid literal for int() with base 10")
        | some hi => mkvGo name wi hi st

/-- `cmd_swv`: switch the current viewer; a missing name is reported
softly, a present name becomes current and then the call to the
nonexistent `self.cmd_view()` raises `AttributeError`. -/
def cmd_swv (name : String) (st : St) : PyRes :=
  match dictGet st.viewers name with
  | none => .ok (log st ("No such viewer: \x27" ++ name ++ "\x27"))
  | some i =>
    .error ({ st with view := some i },
      PyExc.attributeError "\x27ZView\x27 object has no attribute \x27cmd_view\x27")

/-- Body of `cmd_lsv`: sorted viewer names, the current one marked. -/
def lsvBody (st : St) : St :=
  let names := sortStrings (st.viewers.map Prod.fst)
  if names.isEmpty then log st "No viewers"
  else
    log st (joinNL (names.map (fun n =>
      if st.view = dictGet st.viewers n then ">" ++ n else " " ++ n)))

/-- Width of a buffer image (`image.width`). -/
def imgWidth (img : Image) : Nat := ((img.data).map ImageData.width).getD 0

/-- Height of a buffer image (`image.height`). -/
def imgHeight (img : Image) : Nat := ((img.data).map ImageData.height).getD 0

/-- One line of `cmd_lsb`, format `%(name)-10.10s  %(size)13s  %(path)s`. -/
def bufLine (st : St) (name : String) : String :=
  match dictGet st.buffers name with
  | none => ""
  | some img =>
    let size := toString (imgWidth img) ++ "x" ++ toString (imgHeight img)
    fmtTrunc name 10 ++ "  " ++ fmtRight size 13 ++ "  " ++ (img.path.getD "None")

/-- Body of `cmd_lsb`: sorted buffer listing. -/
def lsbBody (st : St) : St :=
  let names := sortStrings (st.buffers.map Prod.fst)
  if names.isEmpty then log st "No buffers"
  else log st (joinNL (names.map (bufLine st)))

/-- `cmd_head`: list header keyword/value pairs of a buffer, format
`%-8.8s  %s`, or a not-found marker per missing keyword. -/
def cmd_head (bufname : String) (args : List String) (st : St) : PyRes :=
  match dictGet st.buffers bufname with
  | none => .ok (log st ("No such buffer: \x27" ++ bufname ++ "\x27"))
  | some img =>
    let header := ((img.data).map ImageData.header).getD []
    let res :=
      match args with
      | [] => header.map (fun kv => fmtTrunc kv.1 8 ++ "  " ++ kv.2)
      | _ :: _ => args.map (fun kwd =>
          match dictGet header kwd with
          | none => fmtTrunc kwd 8 ++ "  -- NOT FOUND IN HEADER --"
          | some v => fmtTrunc kwd 8 ++ "  " ++ v)
    .ok (log st (joinNL res))

/-- The removal loop of `cmd_rmb`: delete each named buffer, logging a
soft error for the missing ones without aborting the batch. -/
def rmbLoop : List String → St → St
  | [], st => st
  | n :: rest, st =>
    let st :=
      if (dictGet st.buffers n).isSome then { st with buffers := dictDel st.buffers n }
      else log st ("No such buffer: \x27" ++ n ++ "\x27")
    rmbLoop rest st

/-- `cmd_rmb`: remove buffers then list the remaining ones. -/
def cmd_rmb (args : List String) (st : St) : PyRes :=
  .ok (lsbBody (rmbLoop args st))

/-- `cmd_rm`: deprecation warning, then `cmd_rmb`. -/
def cmd_rm (args : List String) (st : St) : PyRes :=
  cmd_rmb args (log st "warning: this command will be deprecated--use \x27rmb\x27")

/-! ### The dispatcher (`GView.exec_cmd`) -/

/-- A dispatched handler: `method(*args)` with the Python calling
convention, so an argument list that does not fit the parameters raises
`TypeError`. -/
abbrev Handler := Env → List String → St → PyRes

def arityErr (st : St) (m : String) : PyRes := .error (st, PyExc.typeError m)

def hcmd_cd : Handler := fun env args st => cmd_cd env args st

def hcmd_ls : Handler := fun env args st =>
  .ok (exec_shell env st (joinSp ("ls" :: args)))

def hcmd_pwd : Handler := fun _ args st =>
  match args with
  | [] => .ok (pwdBody st)
  | _ :: _ => arityErr st "cmd_pwd() takes 1 positional argument"

def hcmd_rd : Handler := fun env args st =>
  match args with
  | b :: p :: _ => cmd_rd env b p st
  | _ => arityErr st "cmd_rd() missing required positional arguments"

def hcmd_v : Handler := fun env args st =>
  match args with
  | b :: rest => cmd_v env b rest st
  | [] => arityErr st "cmd_v() missing required positional argument"

def hcmd_tv : Handler := fun env args st =>
  match args with
  | b :: rest => cmd_tv env b rest st
  | [] => arityErr st "cmd_tv() missing required positional argument"

def hcmd_cm : Handler := fun _ args st => cmd_cm args st

def hcmd_dist : Handler := fun _ args st => cmd_dist args st

def hcmd_help : Handler := fun env args st => cmd_help env args st

def hcmd_mkv : Handler := fun env args st =>
  match args with
  | n :: rest => cmd_mkv env n rest st
  | [] => arityErr st "cmd_mkv() missing required positional argument"

def hcmd_lsv : Handler := fun _ args st =>
  match args with
  | [] => .ok (lsvBody st)
  | _ :: _ => arityErr st "cmd_lsv() takes 1 positional argument"

def hcmd_lscm : Handler := fun env args st =>
  match args with
  | [] => .ok (log st (joinNL env.cmapNames))
  | _ :: _ => arityErr st "cmd_lscm() takes 1 positional argument"

def hcmd_head : Handler := fun _ args st =>
  match args with
  | b :: rest => cmd_head b rest st
  | [] => arityErr st "cmd_head() missing required positional argument"

def hcmd_swv : Handler := fun _ args st =>
  match args with
  | [n] => cmd_swv n st
  | _ => arityErr st "cmd_swv() takes 2 positional arguments"

def hcmd_lsb : Handler := fun _ args st =>
  match args with
  | [] => .ok (lsbBody st)
  | _ :: _ => arityErr st "cmd_lsb() takes 1 positional argument"

def hcmd_rmb : Handler := fun _ args st => cmd_rmb args st

def hcmd_rm : Handler := fun _ args st => cmd_rm args st

/-- The command table realised by `getattr(self.zv, "cmd_" + cmd.lower())`
over the `cmd_*` methods of `ZView`. -/
def cmdTable : List (String × Handler) :=
  [("cd", hcmd_cd), ("ls", hcmd_ls), ("pwd", hcmd_pwd), ("rd", hcmd_rd),
   ("v", hcmd_v), ("tv", hcmd_tv), ("cm", hcmd_cm), ("dist", hcmd_dist),
   ("help", hcmd_help), ("mkv", hcmd_mkv), ("lsv", hcmd_lsv),
   ("lscm", hcmd_lscm), ("head", hcmd_head), ("swv", hcmd_swv),
   ("lsb", hcmd_lsb), ("rmb", hcmd_rmb), ("rm", hcmd_rm)]

/-- The `try`/`except Exception` barrier around `res = method(*args)`:
an `ok` passes through, an exception becomes a reported error message on
the state the handler left behind. -/
def dispatchRun (text : String) : PyRes → PyRes
  | .ok st2 => .ok st2
  | .error (st2, e) =>
    .ok (log st2 ("!! Error executing \x27" ++ text ++ "\x27: " ++ e.msg))

/-- The `try`/`except AttributeError` around the `getattr` resolution: an
unresolved command name is reported softly, a resolved handler is run
behind the catch barrier. -/
def dispatchResolved (env : Env) (st1 : St) (text cmd : String)
    (args : List String) : Option Handler → PyRes
  | none => .ok (log st1 ("!! No such command: \x27" ++ cmd ++ "\x27"))
  | some h => dispatchRun text (h env args st1)

/-- `cmd, args = args[0], args[1:]` on the token list: reading token 0 of
an empty line raises `IndexError`, outside every `try` of `exec_cmd`. -/
def dispatchToken (env : Env) (st1 : St) (text : String) : List String → PyRes
  | [] => .error (st1, PyExc.indexError "list index out of range")
  | cmd :: args => dispatchResolved env st1 text cmd args (dictGet cmdTable (pyLower cmd))

/-- The part of `GView.exec_cmd` after the echo, on the stripped line
`text`: route a leading `/` to the shell collaborator, otherwise tokenise
and dispatch. -/
def execDispatch (env : Env) (text : String) (st1 : St) : PyRes :=
  if pyStartsWithSlash text then .ok (exec_shell env st1 (pyDropHead text))
  else dispatchToken env st1 text (pySplit text)

/-- `GView.exec_cmd`: strip the line, echo it with a timestamp, then
dispatch. -/
def exec_cmd (env : Env) (text0 : String) (st : St) : PyRes :=
  execDispatch env (pyStrip text0) (logT env st ("gview> " ++ pyStrip text0))

/-! ### The object finding pipeline (`ZView.find_objects`) -/

/-- Peak finding configuration, the `__init__` defaults of `ZView`
(`settings` is the empty dict, so every `get` yields its default). -/
def radius : ℚ := 10

def threshold : Option ℚ := none

def min_fwhm : ℚ := 2

def max_fwhm : ℚ := 50

def min_ellipse : ℚ := 1 / 2

def edgew : ℚ := 1 / 100

def pixel_coords_offset : ℚ := 0

/-- The shape of a cutout array (`data.shape`); pixel contents stay with
the iqcalc collaborator. -/
structure CutShape where
  width : Nat
  height : Nat
  deriving DecidableEq, Repr

/-- Result of `image.cutout_radius(x, y, radius)`: data and the cutout
offsets. -/
structure Cutout where
  data : CutShape
  x1 : ℚ
  y1 : ℚ
  x2 : ℚ
  y2 : ℚ
  deriving DecidableEq, Repr

abbrev Peak := ℚ × ℚ

/-- A candidate object (`qs`), the Bunch produced by
`iqcalc.evaluate_peaks`, in cutout-local coordinates until `find_objects`
rebases it. -/
structure Candidate where
  x : ℚ
  y : ℚ
  objx : ℚ
  objy : ℚ
  fwhm : ℚ
  fwhm_x : ℚ
  fwhm_y : ℚ
  elipse : ℚ
  background : ℚ
  skylevel : ℚ
  brightness : ℚ
  deriving DecidableEq, Repr

/-- Collaborators of `find_objects`: the image cutout and the iqcalc
library. -/
structure FindEnv where
  cutout_radius : ℚ → ℚ → ℚ → Except PyExc Cutout
  find_bright_peaks : CutShape → Option ℚ → ℚ → Except PyExc (List Peak)
  evaluate_peaks : List Peak → CutShape → ℚ → Except PyExc (List Candidate)
  objlist_select : List Candidate → Nat → Nat → ℚ → ℚ → ℚ → ℚ → Except PyExc (List Candidate)

/-- The coordinate rebase of `find_objects`: add the cutout offsets back
onto the `x`, `y`, `objx`, `objy` fields of a surviving candidate. -/
def rebase (x1 y1 : ℚ) (qs : Candidate) : Candidate :=
  { qs with x := qs.x + x1, y := qs.y + y1, objx := qs.objx + x1, objy := qs.objy + y1 }

/-- `ZView.find_objects`: cut out a region around the focus point, find
bright peaks, evaluate them into candidates, select by the configured
criteria, and rebase the survivors into full image coordinates.  Every
failure is logged and re-raised (the `except` clause ends in `raise e`). -/
def find_objects (env : FindEnv) (x y : ℚ) : Except PyExc (List Candidate) :=
  match env.cutout_radius x y radius with
  | .error e => .error e
  | .ok c =>
    match env.find_bright_peaks c.data threshold radius with
    | .error e => .error e
    | .ok peaks =>
      if peaks.length = 0 then .error (PyExc.other "Cannot find bright peaks")
      else
        match env.evaluate_peaks peaks c.data radius with
        | .error e => .error e
        | .ok objlist =>
          if objlist.length = 0 then
            .error (PyExc.other "Error evaluating bright peaks: no candidates found")
          else
            match env.objlist_select objlist c.data.width c.data.height
                min_fwhm max_fwhm min_ellipse edgew with
            | .error e => .error e
            | .ok results =>
              if results.length = 0 then
                .error (PyExc.other "No object matches selection criteria")
              else .ok (results.map (rebase c.x1 c.y1))

/-! ### The report builder (`ZView.make_report`) -/

/-- The image collaborator of `make_report`.  `equinox` is the composite
`float(image.get_keyword("EQUINOX", 2000.0))`, which raises when the
header value does not convert; `header` is `image.get_header()`. -/
structure RImage where
  equinox : Except PyExc ℚ
  pixtoradec : ℚ → ℚ → Except PyExc (ℚ × ℚ)
  header : Except PyExc (List (String × String))

/-- The wcs/iqcalc collaborators of `make_report`, plus the timestamps
taken at build time. -/
structure REnv where
  deg2fmt : ℚ → ℚ → Except PyExc (String × String)
  get_xy_rotation_and_scale :
    List (String × String) → Except PyExc ((ℚ × ℚ) × (ℚ × ℚ))
  starsize : ℚ → ℚ → ℚ → ℚ → Except PyExc ℚ
  time_local : String
  time_ut : String

/-- The fields `d.setvals(...)` stores in a completed report. -/
structure ReportVals where
  x : ℚ
  y : ℚ
  ra_deg : ℚ
  dec_deg : ℚ
  ra_txt : String
  dec_txt : String
  equinox : ℚ
  fwhm : ℚ
  fwhm_x : ℚ
  fwhm_y : ℚ
  ellipse : ℚ
  background : ℚ
  skylevel : ℚ
  brightness : ℚ
  starsize : ℚ
  time_local : String
  time_ut : String
  deriving DecidableEq, Repr

/-- A report Bunch: the empty dict `d` when the outer handler caught an
exception before `setvals`, the full field set otherwise. -/
inductive Report where
  | empty
  | vals (v : ReportVals)
  deriving DecidableEq, Repr

/-- Field access on a report dict: `none` when the field is absent. -/
def Report.raTxtField : Report → Option String
  | .empty => none
  | .vals v => some v.ra_txt

/-- `ZView.make_report`: best effort report construction.  The WCS block
and the star size block each fall back to sentinels on failure; an
exception anywhere else (the equinox conversion, in particular) is caught
by the outer handler, which returns the still empty dict. -/
def make_report (env : REnv) (img : RImage) (qs : Candidate) : Report :=
  match img.equinox with
  | .error _ => Report.empty
  | .ok equinox =>
    let x := qs.objx
    let y := qs.objy
    let wcsVals :=
      match img.pixtoradec x y with
      | .error _ => ((0 : ℚ), (0 : ℚ), "BAD WCS", "BAD WCS")
      | .ok (ra, dec) =>
        match env.deg2fmt ra dec with
        | .error _ => ((0 : ℚ), (0 : ℚ), "BAD WCS", "BAD WCS")
        | .ok (rt, dt) => (ra, dec, rt, dt)
    let starsize :=
      match img.header with
      | .error _ => (0 : ℚ)
      | .ok hdr =>
        match env.get_xy_rotation_and_scale hdr with
        | .error _ => (0 : ℚ)
        | .ok (_, cdelt1, cdelt2) =>
          match env.starsize qs.fwhm_x cdelt1 qs.fwhm_y cdelt2 with
          | .error _ => (0 : ℚ)
          | .ok s => s
    Report.vals
      { x := x + pixel_coords_offset, y := y + pixel_coords_offset,
        ra_deg := wcsVals.1, dec_deg := wcsVals.2.1,
        ra_txt := wcsVals.2.2.1, dec_txt := wcsVals.2.2.2,
        equinox := equinox,
        fwhm := qs.fwhm, fwhm_x := qs.fwhm_x, fwhm_y := qs.fwhm_y,
        ellipse := qs.elipse, background := qs.background,
        skylevel := qs.skylevel, brightness := qs.brightness,
        starsize := starsize,
        time_local := env.time_local, time_ut := env.time_ut }

/-! ### Specification-side definition for the `tv` alias claim -/

/-- Modelled from the claim wording: the alias substitution applied to a
single argument, `bw` to `gray` and `jt` to `rainbow3`. -/
def substOne (a : String) : String :=
  if a = "bw" then "gray" else if a = "jt" then "rainbow3" else a

/-- Modelled from the claim wording: every occurrence of `bw` replaced by
`gray` and every occurrence of `jt` replaced by `rainbow3`. -/
def substAll (args : List String) : List String := args.map substOne

/-- The tail left by the `cmd_tv` rewriting after its head is split off:
when the head was `bw` the tail still awaits its `jt` replacement, when
the head was `jt` the `bw` replacement already ran on the tail, otherwise
both first-occurrence replacements continue into the tail. -/
def tvRest (a : String) (t : List String) : List String :=
  if a = "bw" then replaceFirst t "jt" "rainbow3"
  else if a = "jt" then replaceFirst t "bw" "gray"
  else tvSubstArgs t

theorem tvSubstArgs_cons (a : String) (t : List String) :
    tvSubstArgs (a :: t) = substOne a :: tvRest a t := by
  by_cases hb : a = "bw"
  · subst hb
    simp [tvSubstArgs, replaceFirst, substOne, tvRest]
  · by_cases hj : a = "jt"
    · subst hj
      simp [tvSubstArgs, replaceFirst, substOne, tvRest, hb]
    · simp [tvSubstArgs, replaceFirst, substOne, tvRest, hb, hj]

theorem tvRest_eq_of_parses (env : Env) (hgray : env.pfloat "gray" = none)
    (hrb : env.pfloat "rainbow3" = none) (a : String) (q : ℚ)
    (hp : env.pfloat (substOne a) = some q) (t : List String) :
    tvRest a t = tvSubstArgs t := by
  by_cases hb : a = "bw"
  · subst hb
    rw [show substOne "bw" = "gray" by simp [substOne], hgray] at hp
    exact absurd hp (by simp)
  · by_cases hj : a = "jt"
    · subst hj
      rw [show substOne "jt" = "rainbow3" by simp [substOne], hrb] at hp
      exact absurd hp (by simp)
    · simp [tvRest, hb, hj]

/-- `cmd_v` observes at most the first three effective argument positions
(`args[0]`, `args[1]`, `args[0]` of the slice), so the first-occurrence
rewriting of `cmd_tv` and the everywhere rewriting of the claim are
indistinguishable to it, given that the replacement colormap names do not
parse as floats. -/
theorem vArgsStep_tv (env : Env) (hgray : env.pfloat "gray" = none)
    (hrb : env.pfloat "rainbow3" = none) (st : St) (args : List String) :
    vArgsStep env st (tvSubstArgs args) = vArgsStep env st (substAll args) := by
  cases args with
  | nil => rfl
  | cons a t =>
    rw [tvSubstArgs_cons, show substAll (a :: t) = substOne a :: substAll t from rfl]
    simp only [vArgsStep]
    cases hp : env.pfloat (substOne a) with
    | none => rfl
    | some lo =>
      rw [tvRest_eq_of_parses env hgray hrb a lo hp]
      cases t with
      | nil => rfl
      | cons b t2 =>
        rw [tvSubstArgs_cons, show substAll (b :: t2) = substOne b :: substAll t2 from rfl]
        simp only [vParse1]
        cases hp2 : env.pfloat (substOne b) with
        | none => rfl
        | some hi =>
          rw [tvRest_eq_of_parses env hgray hrb b hi hp2]
          cases t2 with
          | nil => rfl
          | cons c t3 =>
            rw [tvSubstArgs_cons]
            rfl

/-! ### Concrete instances used by witnesses and counterexamples -/

/-- A concrete collaborator environment: `float` parses only `"5"`, the
image loader always fails with an I/O error, the shell runner is silent
and successful. -/
def envC : Env :=
  { pfloat := fun s => if s = "5" then some 5 else none,
    pint := fun _ => none,
    loadFile := fun _ => .error (PyExc.ioError "unreadable"),
    chdir := fun p => .ok p,
    home := "/home/user",
    shellRun := fun _ => (0, "", ""),
    cmapNames := [],
    docOf := fun _ => none,
    now := "12:00:00" }

/-- The startup state: empty registries, no current viewer. -/
def stC : St := {}

/-- A concrete viewer object. -/
def vA : Viewer := { name := "a" }

/-- A concrete empty image object. -/
def imgE : Image := { data := none, path := none }

/-- A state holding one empty buffer `b1` and one viewer `a` that is
current. -/
def stV : St :=
  { buffers := [("b1", imgE)],
    viewers := [("a", 0)],
    vheap := [(0, vA)],
    view := some 0,
    nextId := 1 }

/-- The state after `mkv a` style viewer creation from the startup state. -/
def stA : St := (make_viewer stC "a" 900 1000).1

/-- Image data a successful load yields in the witnesses. -/
def datC : ImageData := { header := [("SIMPLE", "T")], width := 4, height := 3 }

/-- `envC` with a loader that succeeds. -/
def envR : Env := { envC with loadFile := fun _ => .ok datC }

/-- A concrete candidate. -/
def qsC : Candidate :=
  { x := 4, y := 5, objx := 9 / 2, objy := 11 / 2, fwhm := 3, fwhm_x := 3,
    fwhm_y := 3, elipse := 1, background := 100, skylevel := 110,
    brightness := 1000 }

/-- An image collaborator whose equinox conversion and WCS conversion both
raise (a header with a non numeric `EQUINOX` value and no valid WCS). -/
def rimgBad : RImage :=
  { equinox := .error (PyExc.valueError "could not convert string to float"),
    pixtoradec := fun _ _ => .error (PyExc.other "no WCS"),
    header := .error (PyExc.other "no header") }

/-- An image collaborator whose equinox conversion succeeds while the WCS
conversion raises. -/
def rimgW : RImage :=
  { equinox := .ok 2000,
    pixtoradec := fun _ _ => .error (PyExc.other "no WCS"),
    header := .error (PyExc.other "no header") }

/-- The wcs/iqcalc collaborators for the report witnesses. -/
def renvC : REnv :=
  { deg2fmt := fun _ _ => .error (PyExc.other "bad coordinates"),
    get_xy_rotation_and_scale := fun _ => .error (PyExc.other "no rotation"),
    starsize := fun _ _ _ _ => .error (PyExc.other "no scale"),
    time_local := "2026-10-12 12:00:00",
    time_ut := "2026-10-12 03:00:00" }

/-- A pipeline collaborator environment that finds one peak and keeps the
single candidate, with a cutout extracted at offset `(3, 4)`. -/
def fenvC : FindEnv :=
  { cutout_radius := fun _ _ _ =>
      .ok { data := { width := 21, height := 21 }, x1 := 3, y1 := 4, x2 := 24, y2 := 25 },
    find_bright_peaks := fun _ _ _ => .ok [((5 : ℚ), (6 : ℚ))],
    evaluate_peaks := fun _ _ _ => .ok [qsC],
    objlist_select := fun l _ _ _ _ _ _ => .ok l }

/-! ### Small projection lemmas -/

theorem updView_viewers (st : St) (i : Nat) (f : Viewer → Viewer) :
    (updView st i f).viewers = st.viewers := by
  unfold updView
  cases dictGet st.vheap i <;> rfl

theorem updView_view (st : St) (i : Nat) (f : Viewer → Viewer) :
    (updView st i f).view = st.view := by
  unfold updView
  cases dictGet st.vheap i <;> rfl

theorem updView_buffers (st : St) (i : Nat) (f : Viewer → Viewer) :
    (updView st i f).buffers = st.buffers := by
  unfold updView
  cases dictGet st.vheap i <;> rfl

theorem updView_hist (st : St) (i : Nat) (f : Viewer → Viewer) :
    (updView st i f).hist = st.hist := by
  unfold updView
  cases dictGet st.vheap i <;> rfl

/-! ### Claim C1 -/

/-- Every dispatch outcome on a line holding at least one token is an
`ok`: the catch clauses of `exec_cmd` convert every handler exception into
a reported message. -/
theorem execDispatch_total (env : Env) (text : String) (st1 : St)
    (h : pySplit text ≠ []) : ∃ st', execDispatch env text st1 = .ok st' := by
  unfold execDispatch
  cases hsw : pyStartsWithSlash text with
  | true => simp [hsw]
  | false =>
    simp only [hsw, Bool.false_eq_true, if_false]
    cases ht : pySplit text with
    | nil => exact absurd ht h
    | cons cmd args =>
      simp only [dispatchToken]
      cases hl : dictGet cmdTable (pyLower cmd) with
      | none => exact ⟨_, rfl⟩
      | some hh =>
        simp only [dispatchResolved]
        cases hr : hh env args st1 with
        | ok st2 => exact ⟨_, rfl⟩
        | error pe =>
          obtain ⟨st2, e⟩ := pe
          exact ⟨_, rfl⟩

/-- Claim C1, counterexample: a whitespace-only input line defeats the
dispatch catch barrier.  `exec_cmd "   "` strips to the empty string,
tokenises to the empty list, and the read of token 0 raises `IndexError`
outside every `try` block, so `exec_cmd` propagates the exception to its
caller (after the echo line was already logged). -/
theorem exec_cmd_blank_line_raises :
    exec_cmd envC "   " stC =
      .error ({ hist := ["12:00:00: gview> "] },
              PyExc.indexError "list index out of range") := by
  rfl

/-- Claim C1 (amended): for every input line holding at least one
whitespace-separated token, `exec_cmd` never propagates an exception:
shell escapes run through the total shell collaborator, an unresolvable
command name is reported via the caught `AttributeError`, and any
exception a handler raises is caught at the dispatch boundary and
converted into a reported error message.  Empty and whitespace-only lines
are excluded: on them the tokenisation itself raises, as the
counterexample shows. -/
theorem exec_cmd_never_propagates (env : Env) (text : String) (st : St)
    (h : pySplit (pyStrip text) ≠ []) :
    ∃ st', exec_cmd env text st = .ok st' := by
  unfold exec_cmd
  exact execDispatch_total env (pyStrip text) _ h

/-- Claim C1, witness: the amended theorem applied to the line `pwd`. -/
theorem exec_cmd_never_propagates_witness :
    pySplit (pyStrip "pwd") ≠ [] ∧ ∃ st', exec_cmd envC "pwd" stC = .ok st' :=
  ⟨by decide, exec_cmd_never_propagates envC "pwd" stC (by decide)⟩

/-! ### Claim C2 -/

/-- Claim C2, counterexample: when the equinox keyword conversion
(`float(image.get_keyword("EQUINOX", 2000.0))`) raises in addition to the
WCS conversion, the outer handler of `make_report` catches it before
`setvals` ran, and the returned report is the still empty dict: it does
not contain `ra_txt == "BAD WCS"` (nor any other field), contradicting the
claim for this image even though its `pixtoradec` raises. -/
theorem make_report_empty_on_equinox_failure :
    rimgBad.pixtoradec qsC.objx qsC.objy = .error (PyExc.other "no WCS") ∧
    make_report renvC rimgBad qsC = Report.empty ∧
    (make_report renvC rimgBad qsC).raTxtField ≠ some "BAD WCS" := by
  exact ⟨rfl, rfl, by decide⟩

/-- Claim C2 (amended): `make_report` always returns a report (the model
is a total function, mirroring the outer catch-all handler), and whenever
the WCS pixel-to-sky conversion raises while the equinox retrieval
succeeds, the returned report carries the sentinels
`ra_txt = dec_txt = "BAD WCS"` and `ra_deg = dec_deg = 0`; if the equinox
retrieval itself raises, the outer handler returns the empty report
instead. -/
theorem make_report_badwcs_sentinels (env : REnv) (img : RImage) (qs : Candidate)
    (q : ℚ) (e : PyExc)
    (heq : img.equinox = .ok q)
    (hw : img.pixtoradec qs.objx qs.objy = .error e) :
    ∃ v, make_report env img qs = Report.vals v ∧
      v.ra_txt = "BAD WCS" ∧ v.dec_txt = "BAD WCS" ∧
      v.ra_deg = 0 ∧ v.dec_deg = 0 := by
  simp only [make_report, heq, hw]
  exact ⟨_, rfl, rfl, rfl, rfl, rfl⟩

/-- Claim C2, witness: the amended theorem applied to an image whose
equinox converts and whose WCS conversion raises. -/
theorem make_report_badwcs_sentinels_witness :
    rimgW.equinox = .ok 2000 ∧
    rimgW.pixtoradec qsC.objx qsC.objy = .error (PyExc.other "no WCS") ∧
    ∃ v, make_report renvC rimgW qsC = Report.vals v ∧
      v.ra_txt = "BAD WCS" ∧ v.dec_txt = "BAD WCS" ∧
      v.ra_deg = 0 ∧ v.dec_deg = 0 :=
  ⟨rfl, rfl, make_report_badwcs_sentinels renvC rimgW qsC 2000 (PyExc.other "no WCS") rfl rfl⟩

/-! ### Claim C3 -/

/-- Claim C3: every candidate surviving selection, detected at
cutout-local coordinates, is reported by `find_objects` with its `objx`,
`objy`, `x` and `y` fields translated by the cutout offsets `(x1, y1)`
back into full-image coordinates. -/
theorem find_objects_rebases (env : FindEnv) (x y : ℚ) (c : Cutout)
    (peaks : List Peak) (objlist results : List Candidate)
    (hc : env.cutout_radius x y radius = .ok c)
    (hp : env.find_bright_peaks c.data threshold radius = .ok peaks)
    (hp0 : peaks ≠ [])
    (he : env.evaluate_peaks peaks c.data radius = .ok objlist)
    (he0 : objlist ≠ [])
    (hs : env.objlist_select objlist c.data.width c.data.height
        min_fwhm max_fwhm min_ellipse edgew = .ok results)
    (hr0 : results ≠ []) :
    find_objects env x y = .ok (results.map (rebase c.x1 c.y1)) ∧
    ∀ qs ∈ results,
      (rebase c.x1 c.y1 qs).objx = qs.objx + c.x1 ∧
      (rebase c.x1 c.y1 qs).objy = qs.objy + c.y1 ∧
      (rebase c.x1 c.y1 qs).x = qs.x + c.x1 ∧
      (rebase c.x1 c.y1 qs).y = qs.y + c.y1 := by
  constructor
  · simp [find_objects, hc, hp, he, hs, List.length_eq_zero, hp0, he0, hr0]
  · intro qs _
    exact ⟨rfl, rfl, rfl, rfl⟩

/-- Claim C3, witness: the pipeline on a collaborator environment that
selects one candidate from a cutout extracted at offset `(3, 4)`. -/
theorem find_objects_rebases_witness :
    find_objects fenvC 10 10 = .ok ([qsC].map (rebase 3 4)) ∧
    ∀ qs ∈ [qsC],
      (rebase 3 4 qs).objx = qs.objx + 3 ∧
      (rebase 3 4 qs).objy = qs.objy + 4 ∧
      (rebase 3 4 qs).x = qs.x + 3 ∧
      (rebase 3 4 qs).y = qs.y + 4 :=
  find_objects_rebases fenvC 10 10
    { data := { width := 21, height := 21 }, x1 := 3, y1 := 4, x2 := 24, y2 := 25 }
    [((5 : ℚ), (6 : ℚ))] [qsC] [qsC]
    rfl rfl (by decide) rfl (by decide) rfl (by decide)

/-! ### Claim C4 -/

/-- Claim C4, counterexample: closing the current viewer through
`delete_viewer` removes its registry entry but does not clear the current
viewer pointer — `_view` keeps pointing at the destroyed viewer object
(heap id 0) instead of becoming undefined. -/
theorem delete_viewer_pointer_not_cleared :
    ∃ st', delete_viewer stA "a" = .ok st' ∧
      stA.view = some 0 ∧
      dictGet st'.viewers "a" = none ∧
      st'.view = some 0 ∧ ¬ st'.view = none :=
  ⟨_, rfl, rfl, rfl, rfl, by decide⟩

/-- Claim C4 (amended): `delete_viewer` removes the closed viewer's entry
from the viewer registry, but leaves the current viewer pointer exactly as
it was — even when it pointed to the closed viewer, it keeps pointing at
the destroyed object until the next `mkv`/`swv`. -/
theorem delete_viewer_removes_entry (st : St) (name : String) (i : Nat)
    (h : dictGet st.viewers name = some i)
    (hc : countKey st.viewers name = 1) :
    ∃ st', delete_viewer st name = .ok st' ∧
      dictGet st'.viewers name = none ∧
      st'.view = st.view ∧ st'.buffers = st.buffers ∧ st'.hist = st.hist := by
  unfold delete_viewer
  rw [h]
  refine ⟨_, rfl, ?_, ?_, ?_, ?_⟩
  · rw [updView_viewers]
    exact dictGet_dictDel_of_one st.viewers name hc
  · rw [updView_view]
  · rw [updView_buffers]
  · rw [updView_hist]

/-- Claim C4, witness: the amended theorem applied to the state holding
the single current viewer `a`. -/
theorem delete_viewer_removes_entry_witness :
    dictGet stA.viewers "a" = some 0 ∧ countKey stA.viewers "a" = 1 ∧
    ∃ st', delete_viewer stA "a" = .ok st' ∧
      dictGet st'.viewers "a" = none ∧
      st'.view = stA.view ∧ st'.buffers = stA.buffers ∧ st'.hist = stA.hist :=
  ⟨rfl, by decide, delete_viewer_removes_entry stA "a" 0 rfl (by decide)⟩

/-! ### Claim C5 -/

/-- Claim C5, counterexample: a non-empty line whose first word resolves
to no `cmd_` handler but begins with the shell escape `/` is routed to the
shell collaborator instead: no `No such command` message is reported, so
the claim fails as stated on such lines. -/
theorem exec_cmd_slash_no_message :
    dictGet cmdTable (pyLower "/frob") = none ∧
    exec_cmd envC "/frob" stC = .ok { hist := ["12:00:00: gview> /frob"] } ∧
    "!! No such command: \x27/frob\x27" ∉ (["12:00:00: gview> /frob"] : List String) :=
  ⟨rfl, rfl, by decide⟩

/-- Claim C5 (amended): for every non-empty input line that does not begin
with the shell escape character `/` and whose first whitespace-separated
word matches no command name (no `cmd_<name>` handler exists for its
lowercasing), dispatch does not raise: it logs a `No such command`
message, and the buffer registry, the viewer registry, the viewer heap and
the current viewer pointer are unchanged. -/
theorem exec_cmd_unknown_command (env : Env) (text cmd : String)
    (args : List String) (st : St)
    (hs : pyStartsWithSlash (pyStrip text) = false)
    (ht : pySplit (pyStrip text) = cmd :: args)
    (hl : dictGet cmdTable (pyLower cmd) = none) :
    ∃ st', exec_cmd env text st = .ok st' ∧
      st'.hist = ("!! No such command: \x27" ++ cmd ++ "\x27") ::
                 (env.now ++ ": " ++ ("gview> " ++ pyStrip text)) :: st.hist ∧
      st'.buffers = st.buffers ∧ st'.viewers = st.viewers ∧
      st'.vheap = st.vheap ∧ st'.view = st.view := by
  unfold exec_cmd execDispatch
  simp only [hs, Bool.false_eq_true, if_false, ht, dispatchToken, hl, dispatchResolved]
  exact ⟨_, rfl, rfl, rfl, rfl, rfl, rfl⟩

/-- Claim C5, witness: the amended theorem applied to the unknown command
line `frobnicate 1 2`. -/
theorem exec_cmd_unknown_command_witness :
    (pyStartsWithSlash (pyStrip "frobnicate 1 2") = false) ∧
    pySplit (pyStrip "frobnicate 1 2") = "frobnicate" :: ["1", "2"] ∧
    dictGet cmdTable (pyLower "frobnicate") = none ∧
    ∃ st', exec_cmd envC "frobnicate 1 2" stC = .ok st' ∧
      st'.hist = ("!! No such command: \x27frobnicate\x27") ::
                 (envC.now ++ ": " ++ ("gview> " ++ pyStrip "frobnicate 1 2")) :: stC.hist ∧
      st'.buffers = stC.buffers ∧ st'.viewers = stC.viewers ∧
      st'.vheap = stC.vheap ∧ st'.view = stC.view :=
  ⟨rfl, by decide, rfl,
   exec_cmd_unknown_command envC "frobnicate 1 2" "frobnicate" ["1", "2"] stC
     rfl (by decide) rfl⟩

/-! ### Claim C6 -/

/-- Claim C6: displaying a buffer name absent from the buffer registry
reports a `No such buffer` message and changes nothing else: no viewer is
created (this holds in particular when no viewer exists yet, because the
buffer lookup precedes the viewer auto-creation), the current viewer
pointer and both registries are untouched. -/
theorem cmd_v_no_such_buffer (env : Env) (bufname : String)
    (args : List String) (st : St)
    (h : dictGet st.buffers bufname = none) :
    ∃ st', cmd_v env bufname args st = .ok st' ∧
      st'.hist = ("!! No such buffer: \x27" ++ bufname ++ "\x27") :: st.hist ∧
      st'.buffers = st.buffers ∧ st'.viewers = st.viewers ∧
      st'.vheap = st.vheap ∧ st'.view = st.view ∧ st'.nextId = st.nextId := by
  unfold cmd_v
  rw [h]
  exact ⟨_, rfl, rfl, rfl, rfl, rfl, rfl, rfl⟩

/-- Claim C6, witness: displaying the missing buffer name `nope` from the
startup state, which also has no viewer yet. -/
theorem cmd_v_no_such_buffer_witness :
    dictGet stC.buffers "nope" = none ∧
    ∃ st', cmd_v envC "nope" [] stC = .ok st' ∧
      st'.hist = ("!! No such buffer: \x27nope\x27") :: stC.hist ∧
      st'.buffers = stC.buffers ∧ st'.viewers = stC.viewers ∧
      st'.vheap = stC.vheap ∧ st'.view = stC.view ∧ st'.nextId = stC.nextId :=
  ⟨rfl, cmd_v_no_such_buffer envC "nope" [] stC rfl⟩

/-! ### Claim C7 -/

/-- Claim C7: reading into a buffer name already present in the registry
logs the discard warning and reuses the same registry slot: afterwards the
registry holds exactly one entry for the name, now carrying the newly
loaded data, and every other buffer name's entry is unchanged. -/
theorem cmd_rd_reuses_slot (env : Env) (n p : String) (st : St)
    (img : Image) (dat : ImageData)
    (hin : dictGet st.buffers n = some img)
    (hc : countKey st.buffers n = 1)
    (hl : env.loadFile (resolvePath st.cwd p) = .ok dat) :
    ∃ st', cmd_rd env n p st = .ok st' ∧
      st'.hist = "File read" ::
                 ("Reading file...(" ++ resolvePath st.cwd p ++ ")") ::
                 ("Buffer " ++ n ++ " is in use. Will discard the previous data") ::
                 st.hist ∧
      dictGet st'.buffers n =
        some { data := some dat, path := some (resolvePath st.cwd p) } ∧
      countKey st'.buffers n = 1 ∧
      (∀ m, m ≠ n → dictGet st'.buffers m = dictGet st.buffers m) ∧
      st'.viewers = st.viewers ∧ st'.view = st.view := by
  simp only [cmd_rd, rdLoad, hin, hl]
  refine ⟨_, rfl, rfl, ?_, ?_, ?_, rfl, rfl⟩
  · exact dictGet_dictSet_self st.buffers n _
  · exact countKey_dictSet_of_one st.buffers n _ hc
  · intro m hm
    exact dictGet_dictSet_ne st.buffers n m _ hm

/-- Claim C7, witness: re-reading into the occupied buffer name `b1` with
a loader that succeeds. -/
theorem cmd_rd_reuses_slot_witness :
    dictGet stV.buffers "b1" = some { data := none, path := none } ∧
    countKey stV.buffers "b1" = 1 ∧
    envR.loadFile (resolvePath stV.cwd "f.fits") = .ok datC ∧
    ∃ st', cmd_rd envR "b1" "f.fits" stV = .ok st' ∧
      st'.hist = "File read" ::
                 ("Reading file...(" ++ resolvePath stV.cwd "f.fits" ++ ")") ::
                 ("Buffer " ++ "b1" ++ " is in use. Will discard the previous data") ::
                 stV.hist ∧
      dictGet st'.buffers "b1" =
        some { data := some datC, path := some (resolvePath stV.cwd "f.fits") } ∧
      countKey st'.buffers "b1" = 1 ∧
      (∀ m, m ≠ "b1" → dictGet st'.buffers m = dictGet stV.buffers m) ∧
      st'.viewers = stV.viewers ∧ st'.view = stV.view :=
  ⟨rfl, by decide, rfl,
   cmd_rd_reuses_slot envR "b1" "f.fits" stV { data := none, path := none } datC
     rfl (by decide) rfl⟩

/-! ### Claim C8 -/

/-- Claim C8: `cmd_tv` is equivalent to `cmd_v` on the argument list with
every occurrence of `bw` replaced by `gray` and every occurrence of `jt`
replaced by `rainbow3` — the same resulting state and the same outcome —
given that the replacement colormap names `gray` and `rainbow3` do not
parse as floats (which is how the Python `float` builtin behaves on
them).  The source rewriting replaces only the first occurrence of each
alias, but `cmd_v` cannot observe the difference. -/
theorem cmd_tv_refines (env : Env)
    (hgray : env.pfloat "gray" = none)
    (hrb : env.pfloat "rainbow3" = none)
    (bufname : String) (args : List String) (st : St) :
    cmd_tv env bufname args st = cmd_v env bufname (substAll args) st := by
  unfold cmd_tv cmd_v
  cases hb : dictGet st.buffers bufname with
  | none => rfl
  | some img => exact vArgsStep_tv env hgray hrb _ args

/-- Claim C8, witness: the equivalence applied to an argument list holding
repeated aliases, on the state with buffer `b1` and one viewer. -/
theorem cmd_tv_refines_witness :
    envC.pfloat "gray" = none ∧ envC.pfloat "rainbow3" = none ∧
    cmd_tv envC "b1" ["jt", "bw", "jt"] stV =
      cmd_v envC "b1" (substAll ["jt", "bw", "jt"]) stV :=
  ⟨rfl, rfl, cmd_tv_refines envC rfl rfl "b1" ["jt", "bw", "jt"] stV⟩

/-! ### Claim C9 -/

/-- Claim C9: `cmd_rd` is not atomic on failure.  For a buffer name not
previously registered, the registry entry is created (holding a fresh
image object with no loaded data) before the load is attempted, so when
the loader raises, the raise propagates with the registry still holding
the empty entry for the name. -/
theorem cmd_rd_registers_before_load (env : Env) (n p : String) (st : St)
    (e : PyExc)
    (hin : dictGet st.buffers n = none)
    (hl : env.loadFile (resolvePath st.cwd p) = .error e) :
    ∃ st', cmd_rd env n p st = .error (st', e) ∧
      dictGet st'.buffers n = some { data := none, path := none } ∧
      st'.hist = ("Reading file...(" ++ resolvePath st.cwd p ++ ")") :: st.hist := by
  simp only [cmd_rd, rdLoad, hin, hl]
  exact ⟨_, rfl, dictGet_dictSet_self st.buffers n _, rfl⟩

/-- Claim C9, witness: reading a fresh buffer name through the failing
loader from the startup state. -/
theorem cmd_rd_registers_before_load_witness :
    dictGet stC.buffers "n1" = none ∧
    envC.loadFile (resolvePath stC.cwd "bad.fits") = .error (PyExc.ioError "unreadable") ∧
    ∃ st', cmd_rd envC "n1" "bad.fits" stC = .error (st', PyExc.ioError "unreadable") ∧
      dictGet st'.buffers "n1" = some { data := none, path := none } ∧
      st'.hist = ("Reading file...(" ++ resolvePath stC.cwd "bad.fits" ++ ")") :: stC.hist :=
  ⟨rfl, rfl,
   cmd_rd_registers_before_load envC "n1" "bad.fits" stC (PyExc.ioError "unreadable")
     rfl rfl⟩

/-! ### Claim C10 -/

/-- Claim C10: when the first optional `cmd_v` argument parses as a float
and the second does not, the `ValueError` from the second conversion is
swallowed after `locut` was already assigned; the following
`cut_levels(locut, hicut)` call references the never assigned `hicut` and
raises, with neither cut levels nor a colormap applied — the only display
change in the raise-time state is the preceding `set_image`. -/
theorem cmd_v_halfparsed_cuts_raise (env : Env) (bufname a0 a1 : String)
    (rest : List String) (st : St) (img : Image) (i : Nat) (v : Viewer) (lo : ℚ)
    (hb : dictGet st.buffers bufname = some img)
    (hv : st.view = some i)
    (hh : dictGet st.vheap i = some v)
    (h0 : env.pfloat a0 = some lo)
    (h1 : env.pfloat a1 = none) :
    cmd_v env bufname (a0 :: a1 :: rest) st =
      .error ({ st with vheap := dictSet st.vheap i { v with image := some img } },
        PyExc.nameError "local variable \x27hicut\x27 referenced before assignment") := by
  simp only [cmd_v, hb, ensureViewer, hv, setImage, updView, hh,
             vArgsStep, vParse1, h0, vParse2, h1]

/-- Claim C10, witness: `v b1 5 gray` on the state with buffer `b1` and a
current viewer, under the `float` collaborator that parses only `5`. -/
theorem cmd_v_halfparsed_cuts_raise_witness :
    dictGet stV.buffers "b1" = some imgE ∧
    stV.view = some 0 ∧
    dictGet stV.vheap 0 = some vA ∧
    envC.pfloat "5" = some 5 ∧ envC.pfloat "gray" = none ∧
    cmd_v envC "b1" ["5", "gray"] stV =
      .error ({ stV with vheap := dictSet stV.vheap 0 { vA with image := some imgE } },
        PyExc.nameError "local variable \x27hicut\x27 referenced before assignment") :=
  ⟨rfl, rfl, rfl, rfl, rfl,
   cmd_v_halfparsed_cuts_raise envC "b1" "5" "gray" [] stV
     imgE 0 vA 5 rfl rfl rfl rfl rfl⟩

end Gview
